import Mathlib

/-!
Shallow embedding of the OpenAI text-embedding function with chunking
(`embedding-function.ts`): configuration validation combinators, the
adapter lifecycle (constructor, `buildFromConfig`, `getConfig`) and the
`generate` pipeline (split, batch, call the remote service, collect
vectors), together with theorems settling the specification claims.
-/

namespace TextEmbedding

/-- A runtime JavaScript value, restricted to the shapes the embedding
function manipulates.  The splitter is a function from a string to a list
of strings; JS numbers are modelled as integers (the predicates only
compare against zero). -/
inductive JSValue where
  | undef
  | null
  | num (n : Int)
  | str (s : String)
  | boolean (b : Bool)
  | func (f : String → List String)

/-- Whether `E.fromNullable` / `O.fromNullable` treat the value as absent
(JS `undefined` or `null`). -/
def isNullable : JSValue → Bool
  | .undef => true
  | .null => true
  | _ => false

/-- Source: `typeof v === "string"`. -/
def isString : JSValue → Bool
  | .str _ => true
  | _ => false

/-- Source: `typeof v === "number" && v > 0`. -/
def isPositiveNumber : JSValue → Bool
  | .num n => decide (0 < n)
  | _ => false

/-- Source: `typeof v === "number" && v >= 0`. -/
def isNonNegativeNumber : JSValue → Bool
  | .num n => decide (0 ≤ n)
  | _ => false

/-- Source: `typeof v === "function"`. -/
def isFunction : JSValue → Bool
  | .func _ => true
  | _ => false

/-- Source `validateRequiredField`: `Left (name + " is required")` if the
value is undefined/null, `Left (name + " is invalid")` if it is present
but fails the predicate, otherwise `Right value`. -/
def validateRequiredField (predicate : JSValue → Bool) (name : String)
    (value : JSValue) : Except String JSValue :=
  if isNullable value then .error (name ++ " is required")
  else if predicate value then .ok value
  else .error (name ++ " is invalid")

/-- Source `validateOptionalField`: `Right value` if the value is
undefined/null, otherwise the predicate decides between `Right` and
`Left (name + " is invalid")`. -/
def validateOptionalField (predicate : JSValue → Bool) (name : String)
    (value : JSValue) : Except String JSValue :=
  if isNullable value then .ok value
  else if predicate value then .ok value
  else .error (name ++ " is invalid")

/-- Source `validateFieldUpdate`: `Right value` if the value is
undefined/null, otherwise `Left ("Updating " + name + " is not allowed")`,
whatever the value is. -/
def validateFieldUpdate (name : String) (value : JSValue) :
    Except String JSValue :=
  if isNullable value then .ok value
  else .error ("Updating " ++ name ++ " is not allowed")

/-- A raw, untyped configuration object: every field of the
`OpenAIEmbeddingConfig` interface as an arbitrary runtime value (a field
that the caller did not supply is `JSValue.undef`). -/
structure RawConfig where
  aiServiceUrl : JSValue
  model : JSValue
  encodingFormat : JSValue
  chunkSize : JSValue
  chunkOverlap : JSValue
  chunkStrategy : JSValue
  splitter : JSValue

/-- The aggregation performed by `sequenceS(E.Apply)` over the record of
field checks: the record's values are traversed in key-insertion order and
the first `Left` becomes the overall `Left`; if every check is `Right` the
whole validation succeeds (and the method returns `undefined`). -/
def sequenceChecks : List (Except String JSValue) → Except String Unit
  | [] => .ok ()
  | .error e :: _ => .error e
  | .ok _ :: rest => sequenceChecks rest

/-- The field checks of `validateConfig`, in the key-insertion order of
the `seq` record in the source. -/
def configChecks (config : RawConfig) : List (Except String JSValue) :=
  [validateRequiredField isString "aiServiceUrl" config.aiServiceUrl,
   validateRequiredField isString "model" config.model,
   validateOptionalField isString "encodingFormat" config.encodingFormat,
   validateOptionalField isPositiveNumber "chunkSize" config.chunkSize,
   validateOptionalField isNonNegativeNumber "chunkOverlap" config.chunkOverlap,
   validateOptionalField isString "chunkStrategy" config.chunkStrategy,
   validateOptionalField isFunction "splitter" config.splitter]

/-- Source `validateConfig`: build the record of field checks and throw
the first failure, if any. -/
def validateConfig (config : RawConfig) : Except String Unit :=
  sequenceChecks (configChecks config)

/-- The field checks of `validateConfigUpdate`, in the key-insertion
order of the `seq` record in the source (note: this order differs from
the one in `validateConfig`). -/
def updateChecks (newConfig : RawConfig) : List (Except String JSValue) :=
  [validateFieldUpdate "model" newConfig.model,
   validateFieldUpdate "encodingFormat" newConfig.encodingFormat,
   validateFieldUpdate "chunkStrategy" newConfig.chunkStrategy,
   validateFieldUpdate "chunkOverlap" newConfig.chunkOverlap,
   validateOptionalField isPositiveNumber "chunkSize" newConfig.chunkSize,
   validateFieldUpdate "aiServiceUrl" newConfig.aiServiceUrl,
   validateOptionalField isFunction "splitter" newConfig.splitter]

/-- Source `validateConfigUpdate`: build the record of update checks and
throw the first failure, if any. -/
def validateConfigUpdate (newConfig : RawConfig) : Except String Unit :=
  sequenceChecks (updateChecks newConfig)

/-- An `OpenAIEmbeddingFunction` instance: it stores at most one raw
configuration object (`none` models the `config!` field being unset on an
adapter constructed without a config). -/
structure Adapter where
  config : Option RawConfig

/-- Source constructor: if a config is supplied, validate it (propagating
the thrown error) and store it; otherwise leave the adapter empty. -/
def construct (config : Option RawConfig) : Except String Adapter :=
  match config with
  | none => .ok ⟨none⟩
  | some c =>
    match validateConfig c with
    | .error e => .error e
    | .ok _ => .ok ⟨some c⟩

/-- Source `buildFromConfig`: `new OpenAIEmbeddingFunction(config)` — the
calling instance is not consulted or changed. -/
def buildFromConfig (_self : Adapter) (config : RawConfig) :
    Except String Adapter :=
  construct (some config)

/-- The snapshot returned by `getConfig`: exactly the six persisted data
fields; the splitter has no slot in this type because the source's object
literal omits it. -/
structure ConfigSnapshot where
  aiServiceUrl : JSValue
  model : JSValue
  encodingFormat : JSValue
  chunkSize : JSValue
  chunkOverlap : JSValue
  chunkStrategy : JSValue

/-- Source `getConfig`: read the six fields off the stored config.  On an
unconfigured adapter the property reads would throw a `TypeError`; that
case is modelled as `none`. -/
def getConfig (a : Adapter) : Option ConfigSnapshot :=
  a.config.map fun c =>
    ⟨c.aiServiceUrl, c.model, c.encodingFormat, c.chunkSize,
     c.chunkOverlap, c.chunkStrategy⟩

/-- The `validateConfig` method as a state-passing call on an instance:
the body contains no assignment to `this.config`, so the instance is
returned unchanged next to the result. -/
def Adapter.validateConfigCall (a : Adapter) (config : RawConfig) :
    Except String Unit × Adapter :=
  (validateConfig config, a)

/-- The `validateConfigUpdate` method as a state-passing call on an
instance: the body contains no assignment to `this.config`, so the
instance is returned unchanged next to the result. -/
def Adapter.validateConfigUpdateCall (a : Adapter) (newConfig : RawConfig) :
    Except String Unit × Adapter :=
  (validateConfigUpdate newConfig, a)

/-- One HTTP POST to the embedding service, as assembled in `generate`:
the configured URL, and a JSON body `{model, input, encoding_format}`
carrying the batch of chunk strings. -/
structure HttpRequest where
  url : JSValue
  model : JSValue
  input : List String
  encodingFormat : JSValue

/-- The remote service's reply to one batch request: either a 2xx reply
whose parsed body has `data[i].embedding` vectors, or a non-2xx status
with its status text. -/
inductive HttpResponse where
  | success (data : List (List Int))
  | failure (status : Nat) (statusText : String)

/-- The request `generate` sends for one batch under a given stored
config. -/
def mkRequest (cfg : RawConfig) (batch : List String) : HttpRequest :=
  ⟨cfg.aiServiceUrl, cfg.model, batch, cfg.encodingFormat⟩

/-- Step 1 of `generate`: the loop `for text of texts` pushing
`this.config.splitter(text)` onto `chunks`.  If the stored splitter is
not a function, the first call raises a `TypeError` (a non-validation
runtime error); with no texts the splitter is never called. -/
def splitAll (splitter : JSValue) : List String → Except String (List String)
  | [] => .ok []
  | t :: ts =>
    match splitter with
    | .func f => (splitAll splitter ts).map fun rest => f t ++ rest
    | _ => .error "TypeError: this.config.splitter is not a function"

/-- The batches visited by `for (let i = 0; i < chunks.length; i += n)`
with `batch = chunks.slice(i, i + n)`, for a positive step `n`. -/
def sliceBatches (n : Nat) : List String → List (List String)
  | [] => []
  | x :: xs => ((x :: xs).take n) :: sliceBatches n (xs.drop (n - 1))
termination_by l => l.length
decreasing_by
  simp only [List.length_drop, List.length_cons]
  omega

/-- Step 2 of `generate`: the batching loop's effect as a function of the
stored `chunkSize` value.  With a positive number it slices consecutive
batches; with zero or a negative number the index never passes the
length, so the loop does not terminate (`none`); with `undefined` the
index update `i += undefined` yields `NaN` after a first iteration whose
`slice(0, NaN)` is empty, so a non-empty chunk list yields one empty
batch; the remaining value shapes (which coerce under JS arithmetic and
are reachable through no validated or claim-relevant config) are left
unmodelled as `none`. -/
def batches (chunkSize : JSValue) (chunks : List String) :
    Option (List (List String)) :=
  if chunks.isEmpty then some []
  else
    match chunkSize with
    | .num n => if 0 < n then some (sliceBatches n.toNat chunks) else none
    | .undef => some [[]]
    | _ => none

/-- Steps 3-5 of `generate`: one POST per batch, in order; a non-ok
response throws `Embedding request failed: <status> <statusText>` at
once, otherwise the reply's `data[i].embedding` vectors are appended to
the accumulator. -/
def runBatches (svc : HttpRequest → HttpResponse) (cfg : RawConfig) :
    List (List String) → Except String (List (List Int))
  | [] => .ok []
  | b :: bs =>
    match svc (mkRequest cfg b) with
    | .failure status statusText =>
      .error ("Embedding request failed: " ++ toString status ++ " "
        ++ statusText)
    | .success data =>
      (runBatches svc cfg bs).map fun rest => data ++ rest

/-- Outcome of a `generate` call: the resolved vector list, a thrown
error, or non-termination of the batching loop. -/
inductive GenResult where
  | ok (embeddings : List (List Int))
  | error (msg : String)
  | diverges

/-- Source `generate`, with the remote service abstracted as a function
`svc` from the request to its response: split every text with the stored
splitter, batch the chunk list by the stored `chunkSize`, POST the
batches in order and concatenate the returned vectors. -/
def generate (svc : HttpRequest → HttpResponse) (cfg : RawConfig)
    (texts : List String) : GenResult :=
  match splitAll cfg.splitter texts with
  | .error e => .error e
  | .ok chunks =>
    match batches cfg.chunkSize chunks with
    | none => .diverges
    | some bs =>
      match runBatches svc cfg bs with
      | .error e => .error e
      | .ok embeddings => .ok embeddings

/-- Source `generateForQueries`: `return this.generate(texts)`. -/
def generateForQueries (svc : HttpRequest → HttpResponse) (cfg : RawConfig)
    (texts : List String) : GenResult :=
  generate svc cfg texts

/-- Specification predicate: a required field passes its check — it is
present (not undefined/null) and satisfies the predicate. -/
def RequiredOk (p : JSValue → Bool) (v : JSValue) : Prop :=
  isNullable v = false ∧ p v = true

/-- Specification predicate: an optional field passes its check — if it
is present it satisfies the predicate. -/
def OptionalOk (p : JSValue → Bool) (v : JSValue) : Prop :=
  isNullable v = false → p v = true

/-- Specification predicate: an adapter is either empty or holds a
config that full validation accepts. -/
def ValidState (a : Adapter) : Prop :=
  a.config = none ∨ ∃ c, a.config = some c ∧ validateConfig c = .ok ()

/-- An all-`undefined` raw object (no field supplied). -/
def emptyRaw : RawConfig :=
  ⟨.undef, .undef, .undef, .undef, .undef, .undef, .undef⟩

/-! ### Helper lemmas about the validation combinators -/

theorem requiredField_eq_ok {p : JSValue → Bool} {x : JSValue} (name : String)
    (h1 : isNullable x = false) (h2 : p x = true) :
    validateRequiredField p name x = .ok x := by
  simp [validateRequiredField, h1, h2]

theorem requiredField_eq_required {p : JSValue → Bool} {x : JSValue}
    (name : String) (h : isNullable x = true) :
    validateRequiredField p name x = .error (name ++ " is required") := by
  simp [validateRequiredField, h]

theorem requiredField_eq_invalid {p : JSValue → Bool} {x : JSValue}
    (name : String) (h1 : isNullable x = false) (h2 : p x = false) :
    validateRequiredField p name x = .error (name ++ " is invalid") := by
  simp [validateRequiredField, h1, h2]

theorem optionalField_eq_ok {p : JSValue → Bool} {x : JSValue} (name : String)
    (h : OptionalOk p x) : validateOptionalField p name x = .ok x := by
  cases h1 : isNullable x with
  | true => simp [validateOptionalField, h1]
  | false => simp [validateOptionalField, h1, h h1]

theorem optionalField_eq_invalid {p : JSValue → Bool} {x : JSValue}
    (name : String) (h1 : isNullable x = false) (h2 : p x = false) :
    validateOptionalField p name x = .error (name ++ " is invalid") := by
  simp [validateOptionalField, h1, h2]

theorem fieldUpdate_eq_ok {x : JSValue} (name : String)
    (h : isNullable x = true) : validateFieldUpdate name x = .ok x := by
  simp [validateFieldUpdate, h]

theorem fieldUpdate_eq_not_allowed {x : JSValue} (name : String)
    (h : isNullable x = false) :
    validateFieldUpdate name x
      = .error ("Updating " ++ name ++ " is not allowed") := by
  simp [validateFieldUpdate, h]

theorem requiredField_ok_iff {p : JSValue → Bool} {name : String}
    {x : JSValue} :
    (∃ v, validateRequiredField p name x = .ok v) ↔ RequiredOk p x := by
  unfold validateRequiredField RequiredOk
  cases h1 : isNullable x <;> cases h2 : p x <;> simp [h1, h2]

theorem optionalField_ok_iff {p : JSValue → Bool} {name : String}
    {x : JSValue} :
    (∃ v, validateOptionalField p name x = .ok v) ↔ OptionalOk p x := by
  unfold validateOptionalField OptionalOk
  cases h1 : isNullable x <;> cases h2 : p x <;> simp [h1, h2]

theorem fieldUpdate_ok_iff {name : String} {x : JSValue} :
    (∃ v, validateFieldUpdate name x = .ok v) ↔ isNullable x = true := by
  unfold validateFieldUpdate
  cases h1 : isNullable x <;> simp [h1]

theorem sequenceChecks_ok_iff (l : List (Except String JSValue)) :
    sequenceChecks l = .ok () ↔ ∀ x ∈ l, ∃ v, x = .ok v := by
  induction l with
  | nil => simp [sequenceChecks]
  | cons a rest ih =>
    cases a with
    | error e => simp [sequenceChecks]
    | ok v => simp [sequenceChecks, ih]

theorem sequenceChecks_error_first (l : List (Except String JSValue))
    (i : Nat) (e : String) (hi : l[i]? = some (.error e))
    (hj : ∀ j, j < i → ∃ v, l[j]? = some (.ok v)) :
    sequenceChecks l = .error e := by
  induction l generalizing i with
  | nil => simp at hi
  | cons a rest ih =>
    cases i with
    | zero =>
      simp at hi
      subst hi
      rfl
    | succ n =>
      obtain ⟨v, hv⟩ := hj 0 (Nat.succ_pos n)
      simp at hv
      subst hv
      simp only [sequenceChecks]
      exact ih n (by simpa using hi)
        (fun j hjn => by simpa using hj (j + 1) (Nat.succ_lt_succ hjn))

/-! ### Claim C1 -/

/-- C1: `validateConfig` accepts a raw config if and only if
`aiServiceUrl` and `model` are present and string-typed and every present
optional field (`encodingFormat`, `chunkSize`, `chunkOverlap`,
`chunkStrategy`, `splitter`) satisfies its predicate; when the raised
(first) failure concerns an absent required field the thrown message is
`<field> is required`, and when it concerns a present field failing its
predicate the message is `<field> is invalid`. -/
theorem validateConfig_accepts_iff (c : RawConfig) :
    (validateConfig c = .ok () ↔
      (RequiredOk isString c.aiServiceUrl ∧ RequiredOk isString c.model ∧
       OptionalOk isString c.encodingFormat ∧
       OptionalOk isPositiveNumber c.chunkSize ∧
       OptionalOk isNonNegativeNumber c.chunkOverlap ∧
       OptionalOk isString c.chunkStrategy ∧
       OptionalOk isFunction c.splitter))
    ∧ (isNullable c.aiServiceUrl = true →
        validateConfig c = .error "aiServiceUrl is required")
    ∧ (isNullable c.aiServiceUrl = false → isString c.aiServiceUrl = false →
        validateConfig c = .error "aiServiceUrl is invalid")
    ∧ (RequiredOk isString c.aiServiceUrl → isNullable c.model = true →
        validateConfig c = .error "model is required")
    ∧ (RequiredOk isString c.aiServiceUrl → isNullable c.model = false →
        isString c.model = false →
        validateConfig c = .error "model is invalid")
    ∧ (RequiredOk isString c.aiServiceUrl → RequiredOk isString c.model →
        isNullable c.encodingFormat = false →
        isString c.encodingFormat = false →
        validateConfig c = .error "encodingFormat is invalid")
    ∧ (RequiredOk isString c.aiServiceUrl → RequiredOk isString c.model →
        OptionalOk isString c.encodingFormat →
        isNullable c.chunkSize = false → isPositiveNumber c.chunkSize = false →
        validateConfig c = .error "chunkSize is invalid")
    ∧ (RequiredOk isString c.aiServiceUrl → RequiredOk isString c.model →
        OptionalOk isString c.encodingFormat →
        OptionalOk isPositiveNumber c.chunkSize →
        isNullable c.chunkOverlap = false →
        isNonNegativeNumber c.chunkOverlap = false →
        validateConfig c = .error "chunkOverlap is invalid")
    ∧ (RequiredOk isString c.aiServiceUrl → RequiredOk isString c.model →
        OptionalOk isString c.encodingFormat →
        OptionalOk isPositiveNumber c.chunkSize →
        OptionalOk isNonNegativeNumber c.chunkOverlap →
        isNullable c.chunkStrategy = false →
        isString c.chunkStrategy = false →
        validateConfig c = .error "chunkStrategy is invalid")
    ∧ (RequiredOk isString c.aiServiceUrl → RequiredOk isString c.model →
        OptionalOk isString c.encodingFormat →
        OptionalOk isPositiveNumber c.chunkSize →
        OptionalOk isNonNegativeNumber c.chunkOverlap →
        OptionalOk isString c.chunkStrategy →
        isNullable c.splitter = false → isFunction c.splitter = false →
        validateConfig c = .error "splitter is invalid") := by
  refine ⟨?_, ?_, ?_, ?_, ?_, ?_, ?_, ?_, ?_, ?_⟩
  · rw [validateConfig, sequenceChecks_ok_iff]
    simp only [configChecks, List.forall_mem_cons, List.forall_mem_nil,
      and_true]
    rw [requiredField_ok_iff, requiredField_ok_iff, optionalField_ok_iff,
      optionalField_ok_iff, optionalField_ok_iff, optionalField_ok_iff,
      optionalField_ok_iff]
    simp
  · intro h
    simp [validateConfig, configChecks, sequenceChecks,
      requiredField_eq_required "aiServiceUrl" h]
  · intro h1 h2
    simp [validateConfig, configChecks, sequenceChecks,
      requiredField_eq_invalid "aiServiceUrl" h1 h2]
  · intro hu h
    simp [validateConfig, configChecks, sequenceChecks,
      requiredField_eq_ok "aiServiceUrl" hu.1 hu.2,
      requiredField_eq_required "model" h]
  · intro hu h1 h2
    simp [validateConfig, configChecks, sequenceChecks,
      requiredField_eq_ok "aiServiceUrl" hu.1 hu.2,
      requiredField_eq_invalid "model" h1 h2]
  · intro hu hm h1 h2
    simp [validateConfig, configChecks, sequenceChecks,
      requiredField_eq_ok "aiServiceUrl" hu.1 hu.2,
      requiredField_eq_ok "model" hm.1 hm.2,
      optionalField_eq_invalid "encodingFormat" h1 h2]
  · intro hu hm hef h1 h2
    simp [validateConfig, configChecks, sequenceChecks,
      requiredField_eq_ok "aiServiceUrl" hu.1 hu.2,
      requiredField_eq_ok "model" hm.1 hm.2,
      optionalField_eq_ok "encodingFormat" hef,
      optionalField_eq_invalid "chunkSize" h1 h2]
  · intro hu hm hef hcs h1 h2
    simp [validateConfig, configChecks, sequenceChecks,
      requiredField_eq_ok "aiServiceUrl" hu.1 hu.2,
      requiredField_eq_ok "model" hm.1 hm.2,
      optionalField_eq_ok "encodingFormat" hef,
      optionalField_eq_ok "chunkSize" hcs,
      optionalField_eq_invalid "chunkOverlap" h1 h2]
  · intro hu hm hef hcs hco h1 h2
    simp [validateConfig, configChecks, sequenceChecks,
      requiredField_eq_ok "aiServiceUrl" hu.1 hu.2,
      requiredField_eq_ok "model" hm.1 hm.2,
      optionalField_eq_ok "encodingFormat" hef,
      optionalField_eq_ok "chunkSize" hcs,
      optionalField_eq_ok "chunkOverlap" hco,
      optionalField_eq_invalid "chunkStrategy" h1 h2]
  · intro hu hm hef hcs hco hst h1 h2
    simp [validateConfig, configChecks, sequenceChecks,
      requiredField_eq_ok "aiServiceUrl" hu.1 hu.2,
      requiredField_eq_ok "model" hm.1 hm.2,
      optionalField_eq_ok "encodingFormat" hef,
      optionalField_eq_ok "chunkSize" hcs,
      optionalField_eq_ok "chunkOverlap" hco,
      optionalField_eq_ok "chunkStrategy" hst,
      optionalField_eq_invalid "splitter" h1 h2]

/-- Witness for C1 at a concrete input: a config whose `aiServiceUrl` is
absent is rejected with `aiServiceUrl is required`. -/
theorem validateConfig_accepts_iff_witness :
    validateConfig emptyRaw = .error "aiServiceUrl is required" :=
  (validateConfig_accepts_iff emptyRaw).2.1 rfl

/-! ### Helper lemmas about the generate pipeline -/

theorem splitAll_func (f : String → List String) (texts : List String) :
    splitAll (.func f) texts = .ok (texts.map f).flatten := by
  induction texts with
  | nil => rfl
  | cons t ts ih => simp [splitAll, ih, Except.map]

theorem sliceBatches_nil_iff (n : Nat) (l : List String) :
    sliceBatches n l = [] ↔ l = [] := by
  cases l with
  | nil => simp [sliceBatches]
  | cons x xs => simp [sliceBatches]

theorem sliceBatches_flatten (n : Nat) (hn : 1 ≤ n) :
    ∀ l : List String, (sliceBatches n l).flatten = l
  | [] => by simp [sliceBatches]
  | x :: xs => by
    have ih := sliceBatches_flatten n hn (xs.drop (n - 1))
    rw [sliceBatches, List.flatten_cons, ih]
    cases n with
    | zero => omega
    | succ m =>
      simp only [List.take_succ_cons, Nat.add_sub_cancel, List.cons_append,
        List.cons.injEq, true_and]
      exact List.take_append_drop m xs
termination_by l => l.length
decreasing_by
  simp only [List.length_drop, List.length_cons]
  omega

theorem sliceBatches_length_le (n : Nat) :
    ∀ l : List String, ∀ b ∈ sliceBatches n l, b.length ≤ n
  | [] => by simp [sliceBatches]
  | x :: xs => by
    intro b hb
    rw [sliceBatches] at hb
    rcases List.mem_cons.mp hb with h | h
    · subst h
      exact List.length_take_le n (x :: xs)
    · exact sliceBatches_length_le n (xs.drop (n - 1)) b h
termination_by l => l.length
decreasing_by
  simp only [List.length_drop, List.length_cons]
  omega

theorem sliceBatches_dropLast_length (n : Nat) (hn : 1 ≤ n) :
    ∀ l : List String, ∀ b ∈ (sliceBatches n l).dropLast, b.length = n
  | [] => by simp [sliceBatches]
  | x :: xs => by
    intro b hb
    rw [sliceBatches] at hb
    by_cases hrest : sliceBatches n (xs.drop (n - 1)) = []
    · rw [hrest] at hb
      simp at hb
    · rw [List.dropLast_cons_of_ne_nil hrest] at hb
      rcases List.mem_cons.mp hb with h | h
      · subst h
        have hne : xs.drop (n - 1) ≠ [] := by
          intro hcontra
          exact hrest ((sliceBatches_nil_iff n _).mpr hcontra)
        have hlen : n - 1 < xs.length := by
          by_contra hge
          exact hne (List.drop_eq_nil_of_le (by omega))
        simp only [List.length_take, List.length_cons]
        omega
      · exact sliceBatches_dropLast_length n hn (xs.drop (n - 1)) b h
termination_by l => l.length
decreasing_by
  simp only [List.length_drop, List.length_cons]
  omega

theorem batches_pos_num (n : Int) (hn : 0 < n) (chunks : List String) :
    batches (.num n) chunks = some (sliceBatches n.toNat chunks) := by
  cases chunks with
  | nil => simp [batches, sliceBatches]
  | cons x xs => simp [batches, hn]

theorem runBatches_success (svc : HttpRequest → HttpResponse)
    (cfg : RawConfig) (embed : String → List Int)
    (hsvc : ∀ req, svc req = .success (req.input.map embed)) :
    ∀ bs : List (List String),
      runBatches svc cfg bs = .ok (bs.flatten.map embed) := by
  intro bs
  induction bs with
  | nil => simp [runBatches]
  | cons b rest ih =>
    simp [runBatches, hsvc, ih, Except.map, mkRequest]

theorem runBatches_first_failure (svc : HttpRequest → HttpResponse)
    (cfg : RawConfig) (bfail : List String) (bs₂ : List (List String))
    (status : Nat) (statusText : String)
    (hfail : svc (mkRequest cfg bfail) = .failure status statusText) :
    ∀ bs₁ : List (List String),
      (∀ b ∈ bs₁, ∃ data, svc (mkRequest cfg b) = .success data) →
      runBatches svc cfg (bs₁ ++ bfail :: bs₂)
        = .error ("Embedding request failed: " ++ toString status ++ " "
            ++ statusText) := by
  intro bs₁
  induction bs₁ with
  | nil =>
    intro _
    simp [runBatches, hfail]
  | cons b rest ih =>
    intro hok
    obtain ⟨data, hdata⟩ := hok b (List.mem_cons_self b rest)
    have hrest := ih fun x hx => hok x (List.mem_cons_of_mem b hx)
    simp [runBatches, hdata, hrest, Except.map]

/-! ### Claim C5 -/

/-- C5: `generate` (and `generateForQueries`, which runs the identical
pipeline) builds the chunk list as the in-order concatenation of the
splitter's output over the input texts, partitions it into consecutive
batches of size `chunkSize` with only the final batch possibly smaller,
and — when the service answers every request with one vector per input
chunk in request order — returns one vector per chunk in exactly the
flattened per-text chunk order. -/
theorem generate_pipeline (cfg : RawConfig) (f : String → List String)
    (n : Int) (embed : String → List Int) (svc : HttpRequest → HttpResponse)
    (texts : List String)
    (hsp : cfg.splitter = .func f) (hcs : cfg.chunkSize = .num n)
    (hn : 0 < n)
    (hsvc : ∀ req, svc req = .success (req.input.map embed)) :
    splitAll cfg.splitter texts = .ok ((texts.map f).flatten)
    ∧ batches cfg.chunkSize ((texts.map f).flatten)
        = some (sliceBatches n.toNat ((texts.map f).flatten))
    ∧ (sliceBatches n.toNat ((texts.map f).flatten)).flatten
        = (texts.map f).flatten
    ∧ (∀ b ∈ (sliceBatches n.toNat ((texts.map f).flatten)).dropLast,
        b.length = n.toNat)
    ∧ (∀ b ∈ sliceBatches n.toNat ((texts.map f).flatten),
        b.length ≤ n.toNat)
    ∧ generate svc cfg texts = .ok (((texts.map f).flatten).map embed)
    ∧ generateForQueries svc cfg texts = generate svc cfg texts := by
  have hn1 : 1 ≤ n.toNat := by omega
  have hflat := sliceBatches_flatten n.toNat hn1 ((texts.map f).flatten)
  refine ⟨?_, ?_, hflat, ?_, ?_, ?_, rfl⟩
  · rw [hsp, splitAll_func]
  · rw [hcs, batches_pos_num n hn]
  · exact sliceBatches_dropLast_length n.toNat hn1 ((texts.map f).flatten)
  · exact sliceBatches_length_le n.toNat ((texts.map f).flatten)
  · simp only [generate, hsp, splitAll_func, hcs, batches_pos_num n hn,
      runBatches_success svc cfg embed hsvc, hflat]

/-- Witness for C5: splitter `text => [text]`, `chunkSize = 2`, texts
`["a","b","c"]`; the call returns one vector per chunk in input order. -/
theorem generate_pipeline_witness :
    generate (fun req => .success (req.input.map fun _ => [1]))
      (⟨.str "u", .str "m", .str "float", .num 2, .num 0, .str "token",
        .func fun t => [t]⟩ : RawConfig) ["a", "b", "c"]
      = .ok [[1], [1], [1]] := by
  have h := generate_pipeline
    (⟨.str "u", .str "m", .str "float", .num 2, .num 0, .str "token",
      .func fun t => [t]⟩ : RawConfig)
    (fun t => [t]) 2 (fun _ => [1])
    (fun req => .success (req.input.map fun _ => [1]))
    ["a", "b", "c"] rfl rfl (by decide) (fun req => rfl)
  exact h.2.2.2.2.2.1

/-! ### Claim C6 -/

/-- C6: if the remote request for some batch returns a non-success
response, `generate` fails for the whole call with an error reporting the
numeric status code and status text; the preceding batches' vectors are
not returned (the result is the error alone), whatever the later batches
are. -/
theorem generate_aborts_on_failure (cfg : RawConfig)
    (f : String → List String) (texts : List String)
    (svc : HttpRequest → HttpResponse)
    (bs₁ : List (List String)) (bfail : List String)
    (bs₂ : List (List String)) (status : Nat) (statusText : String)
    (hsp : cfg.splitter = .func f)
    (hb : batches cfg.chunkSize ((texts.map f).flatten)
        = some (bs₁ ++ bfail :: bs₂))
    (hok : ∀ b ∈ bs₁, ∃ data, svc (mkRequest cfg b) = .success data)
    (hfail : svc (mkRequest cfg bfail) = .failure status statusText) :
    generate svc cfg texts
      = .error ("Embedding request failed: " ++ toString status ++ " "
          ++ statusText)
    ∧ ∀ vectors, generate svc cfg texts ≠ .ok vectors := by
  have habort : generate svc cfg texts
      = .error ("Embedding request failed: " ++ toString status ++ " "
          ++ statusText) := by
    simp only [generate, hsp, splitAll_func, hb,
      runBatches_first_failure svc cfg bfail bs₂ status statusText hfail
        bs₁ hok]
  refine ⟨habort, ?_⟩
  intro vectors h
  rw [habort] at h
  simp at h

/-- Witness for C6: three chunks batched as `["a","b"]` then `["c"]`; the
service replies 500 to the second batch, so the whole call fails with the
status line and the first batch's vectors are not returned. -/
theorem generate_aborts_on_failure_witness :
    generate
      (fun req => if req.input = ["c"]
        then .failure 500 "Internal Server Error"
        else .success (req.input.map fun _ => [1]))
      (⟨.str "u", .str "m", .str "float", .num 2, .num 0, .str "token",
        .func fun t => [t]⟩ : RawConfig) ["a", "b", "c"]
      = .error ("Embedding request failed: " ++ toString 500 ++ " "
          ++ "Internal Server Error") := by
  have h := generate_aborts_on_failure
    (⟨.str "u", .str "m", .str "float", .num 2, .num 0, .str "token",
      .func fun t => [t]⟩ : RawConfig)
    (fun t => [t]) ["a", "b", "c"]
    (fun req => if req.input = ["c"]
      then .failure 500 "Internal Server Error"
      else .success (req.input.map fun _ => [1]))
    [["a", "b"]] ["c"] [] 500 "Internal Server Error"
    rfl (by simp [batches, sliceBatches]) ?_ (by rfl)
  · exact h.1
  · intro b hb
    simp only [List.mem_singleton] at hb
    subst hb
    exact ⟨[[1], [1]], rfl⟩

/-! ### Claim C2 -/

/-- C2 counterexample: an update supplying a defined `aiServiceUrl`
together with an invalid `chunkSize` does not throw any
`Updating <field> is not allowed` error — the `chunkSize` check is run
before the `aiServiceUrl` check, so `chunkSize is invalid` is thrown. -/
theorem update_immutable_claim_counterexample :
    validateConfigUpdate
      ⟨.str "x", .undef, .undef, .num (-1), .undef, .undef, .undef⟩
      = .error "chunkSize is invalid"
    ∧ ("chunkSize is invalid" : String) ∉
        (["Updating model is not allowed",
          "Updating encodingFormat is not allowed",
          "Updating chunkStrategy is not allowed",
          "Updating chunkOverlap is not allowed",
          "Updating aiServiceUrl is not allowed"] : List String) := by
  exact ⟨rfl, by decide⟩

/-- C2 (amended): `validateConfigUpdate` throws whenever a defined value
(including falsy ones) is supplied for `model`, `encodingFormat`,
`chunkStrategy`, `chunkOverlap` or `aiServiceUrl`; the message is
`Updating <field> is not allowed` for the first defined field in the
check order `model`, `encodingFormat`, `chunkStrategy`, `chunkOverlap`,
`aiServiceUrl` — except that when the first four are absent and
`chunkSize` is defined and invalid, `chunkSize is invalid` is thrown even
if `aiServiceUrl` is defined.  Absent fields are ignored, and an update
with every field undefined always succeeds. -/
theorem validateConfigUpdate_characterisation (u : RawConfig) :
    (isNullable u.model = false →
      validateConfigUpdate u = .error "Updating model is not allowed")
    ∧ (isNullable u.model = true → isNullable u.encodingFormat = false →
      validateConfigUpdate u
        = .error "Updating encodingFormat is not allowed")
    ∧ (isNullable u.model = true → isNullable u.encodingFormat = true →
      isNullable u.chunkStrategy = false →
      validateConfigUpdate u = .error "Updating chunkStrategy is not allowed")
    ∧ (isNullable u.model = true → isNullable u.encodingFormat = true →
      isNullable u.chunkStrategy = true → isNullable u.chunkOverlap = false →
      validateConfigUpdate u = .error "Updating chunkOverlap is not allowed")
    ∧ (isNullable u.model = true → isNullable u.encodingFormat = true →
      isNullable u.chunkStrategy = true → isNullable u.chunkOverlap = true →
      OptionalOk isPositiveNumber u.chunkSize →
      isNullable u.aiServiceUrl = false →
      validateConfigUpdate u = .error "Updating aiServiceUrl is not allowed")
    ∧ (isNullable u.model = true → isNullable u.encodingFormat = true →
      isNullable u.chunkStrategy = true → isNullable u.chunkOverlap = true →
      isNullable u.chunkSize = false → isPositiveNumber u.chunkSize = false →
      validateConfigUpdate u = .error "chunkSize is invalid")
    ∧ ((isNullable u.model = false ∨ isNullable u.encodingFormat = false ∨
        isNullable u.chunkStrategy = false ∨
        isNullable u.chunkOverlap = false ∨
        isNullable u.aiServiceUrl = false) →
      validateConfigUpdate u ≠ .ok ())
    ∧ (isNullable u.model = true → isNullable u.encodingFormat = true →
      isNullable u.chunkStrategy = true → isNullable u.chunkOverlap = true →
      isNullable u.aiServiceUrl = true →
      OptionalOk isPositiveNumber u.chunkSize →
      OptionalOk isFunction u.splitter →
      validateConfigUpdate u = .ok ())
    ∧ validateConfigUpdate emptyRaw = .ok () := by
  refine ⟨?_, ?_, ?_, ?_, ?_, ?_, ?_, ?_, rfl⟩
  · intro h
    simp [validateConfigUpdate, updateChecks, sequenceChecks,
      fieldUpdate_eq_not_allowed "model" h]
  · intro h1 h
    simp [validateConfigUpdate, updateChecks, sequenceChecks,
      fieldUpdate_eq_ok "model" h1,
      fieldUpdate_eq_not_allowed "encodingFormat" h]
  · intro h1 h2 h
    simp [validateConfigUpdate, updateChecks, sequenceChecks,
      fieldUpdate_eq_ok "model" h1, fieldUpdate_eq_ok "encodingFormat" h2,
      fieldUpdate_eq_not_allowed "chunkStrategy" h]
  · intro h1 h2 h3 h
    simp [validateConfigUpdate, updateChecks, sequenceChecks,
      fieldUpdate_eq_ok "model" h1, fieldUpdate_eq_ok "encodingFormat" h2,
      fieldUpdate_eq_ok "chunkStrategy" h3,
      fieldUpdate_eq_not_allowed "chunkOverlap" h]
  · intro h1 h2 h3 h4 hcs h
    simp [validateConfigUpdate, updateChecks, sequenceChecks,
      fieldUpdate_eq_ok "model" h1, fieldUpdate_eq_ok "encodingFormat" h2,
      fieldUpdate_eq_ok "chunkStrategy" h3,
      fieldUpdate_eq_ok "chunkOverlap" h4,
      optionalField_eq_ok "chunkSize" hcs,
      fieldUpdate_eq_not_allowed "aiServiceUrl" h]
  · intro h1 h2 h3 h4 hp hinv
    simp [validateConfigUpdate, updateChecks, sequenceChecks,
      fieldUpdate_eq_ok "model" h1, fieldUpdate_eq_ok "encodingFormat" h2,
      fieldUpdate_eq_ok "chunkStrategy" h3,
      fieldUpdate_eq_ok "chunkOverlap" h4,
      optionalField_eq_invalid "chunkSize" hp hinv]
  · intro hdef hok
    rw [validateConfigUpdate, sequenceChecks_ok_iff] at hok
    simp only [updateChecks, List.forall_mem_cons, List.forall_mem_nil,
      and_true] at hok
    obtain ⟨h1, h2, h3, h4, _, h6, _⟩ := hok
    rw [fieldUpdate_ok_iff] at h1 h2 h3 h4 h6
    rcases hdef with h | h | h | h | h <;> simp_all
  · intro h1 h2 h3 h4 h5 hcs hsp
    simp [validateConfigUpdate, updateChecks, sequenceChecks,
      fieldUpdate_eq_ok "model" h1, fieldUpdate_eq_ok "encodingFormat" h2,
      fieldUpdate_eq_ok "chunkStrategy" h3,
      fieldUpdate_eq_ok "chunkOverlap" h4,
      optionalField_eq_ok "chunkSize" hcs,
      fieldUpdate_eq_ok "aiServiceUrl" h5,
      optionalField_eq_ok "splitter" hsp]

/-- Witness for C2's amended theorem: an update supplying `model` is
rejected with `Updating model is not allowed`. -/
theorem validateConfigUpdate_characterisation_witness :
    validateConfigUpdate
      ⟨.undef, .str "new-model", .undef, .undef, .undef, .undef, .undef⟩
      = .error "Updating model is not allowed" :=
  (validateConfigUpdate_characterisation
    ⟨.undef, .str "new-model", .undef, .undef, .undef, .undef, .undef⟩).1 rfl

/-! ### Claim C3 -/

/-- C3 counterexample: in update mode, with both `aiServiceUrl` and
`model` supplied (both failing their update check), the thrown error
concerns `model`, not the service URL — so the two modes do not share the
claimed single fixed order beginning with the service URL. -/
theorem update_order_counterexample :
    validateConfigUpdate
      ⟨.str "u2", .str "m2", .undef, .undef, .undef, .undef, .undef⟩
      = .error "Updating model is not allowed"
    ∧ ("Updating model is not allowed" : String)
        ≠ "Updating aiServiceUrl is not allowed" := by
  exact ⟨rfl, by decide⟩

/-- C3 (amended): both validators raise the error of the first failing
check, but each along its own fixed order: `validateConfig` checks
`aiServiceUrl`, `model`, `encodingFormat`, `chunkSize`, `chunkOverlap`,
`chunkStrategy`, `splitter` (the list `configChecks`), while
`validateConfigUpdate` checks `model`, `encodingFormat`, `chunkStrategy`,
`chunkOverlap`, `chunkSize`, `aiServiceUrl`, `splitter` (the list
`updateChecks`). -/
theorem validate_first_failure_policy :
    (∀ (c : RawConfig) (i : Nat) (e : String),
      (configChecks c)[i]? = some (.error e) →
      (∀ j, j < i → ∃ v, (configChecks c)[j]? = some (.ok v)) →
      validateConfig c = .error e)
    ∧ (∀ (u : RawConfig) (i : Nat) (e : String),
      (updateChecks u)[i]? = some (.error e) →
      (∀ j, j < i → ∃ v, (updateChecks u)[j]? = some (.ok v)) →
      validateConfigUpdate u = .error e) :=
  ⟨fun c i e hi hj => sequenceChecks_error_first (configChecks c) i e hi hj,
   fun u i e hi hj => sequenceChecks_error_first (updateChecks u) i e hi hj⟩

/-- Witness for C3's amended theorem: the check at position 4 of the
update order is the `chunkSize` predicate check; with the four update
checks before it passing, its failure is the raised error. -/
theorem validate_first_failure_policy_witness :
    validateConfigUpdate
      ⟨.str "w", .undef, .undef, .num 0, .undef, .undef, .undef⟩
      = .error "chunkSize is invalid" :=
  validate_first_failure_policy.2
    ⟨.str "w", .undef, .undef, .num 0, .undef, .undef, .undef⟩ 4
    "chunkSize is invalid" rfl
    (by
      intro j hj
      interval_cases j <;> exact ⟨_, rfl⟩)

/-! ### Claim C4 -/

/-- C4 counterexample: a config whose only defined field is an invalid
`chunkSize` is rejected with `aiServiceUrl is required`, not with
`chunkSize is invalid`, because the required-field checks run first. -/
theorem chunkSize_error_counterexample :
    validateConfig ⟨.undef, .undef, .undef, .num (-1), .undef, .undef, .undef⟩
      = .error "aiServiceUrl is required"
    ∧ ("aiServiceUrl is required" : String) ≠ "chunkSize is invalid" := by
  exact ⟨rfl, by decide⟩

/-- C4 (amended): when every check ordered before `chunkSize` passes
(for configs: `aiServiceUrl` and `model` present strings and
`encodingFormat` valid if present; for updates: `model`,
`encodingFormat`, `chunkStrategy`, `chunkOverlap` absent), a defined
`chunkSize` that is not a positive number makes both validators throw
`chunkSize is invalid`; when `chunkSize` is a positive number both
succeed provided the remaining checks pass (config: `chunkOverlap`,
`chunkStrategy`, `splitter` valid if present; update: `aiServiceUrl` also
absent and `splitter` callable if defined). -/
theorem chunkSize_validation (c : RawConfig) :
    (RequiredOk isString c.aiServiceUrl → RequiredOk isString c.model →
      OptionalOk isString c.encodingFormat →
      isNullable c.chunkSize = false → isPositiveNumber c.chunkSize = false →
      validateConfig c = .error "chunkSize is invalid")
    ∧ (isNullable c.model = true → isNullable c.encodingFormat = true →
      isNullable c.chunkStrategy = true → isNullable c.chunkOverlap = true →
      isNullable c.chunkSize = false → isPositiveNumber c.chunkSize = false →
      validateConfigUpdate c = .error "chunkSize is invalid")
    ∧ (isPositiveNumber c.chunkSize = true →
      RequiredOk isString c.aiServiceUrl → RequiredOk isString c.model →
      OptionalOk isString c.encodingFormat →
      OptionalOk isNonNegativeNumber c.chunkOverlap →
      OptionalOk isString c.chunkStrategy →
      OptionalOk isFunction c.splitter →
      validateConfig c = .ok ())
    ∧ (isPositiveNumber c.chunkSize = true →
      isNullable c.model = true → isNullable c.encodingFormat = true →
      isNullable c.chunkStrategy = true → isNullable c.chunkOverlap = true →
      isNullable c.aiServiceUrl = true → OptionalOk isFunction c.splitter →
      validateConfigUpdate c = .ok ()) := by
  refine ⟨?_, ?_, ?_, ?_⟩
  · intro hu hm hef h1 h2
    simp [validateConfig, configChecks, sequenceChecks,
      requiredField_eq_ok "aiServiceUrl" hu.1 hu.2,
      requiredField_eq_ok "model" hm.1 hm.2,
      optionalField_eq_ok "encodingFormat" hef,
      optionalField_eq_invalid "chunkSize" h1 h2]
  · intro h1 h2 h3 h4 hp hinv
    simp [validateConfigUpdate, updateChecks, sequenceChecks,
      fieldUpdate_eq_ok "model" h1, fieldUpdate_eq_ok "encodingFormat" h2,
      fieldUpdate_eq_ok "chunkStrategy" h3,
      fieldUpdate_eq_ok "chunkOverlap" h4,
      optionalField_eq_invalid "chunkSize" hp hinv]
  · intro hpos hu hm hef hco hst hsp
    simp [validateConfig, configChecks, sequenceChecks,
      requiredField_eq_ok "aiServiceUrl" hu.1 hu.2,
      requiredField_eq_ok "model" hm.1 hm.2,
      optionalField_eq_ok "encodingFormat" hef,
      optionalField_eq_ok "chunkSize" (fun _ => hpos),
      optionalField_eq_ok "chunkOverlap" hco,
      optionalField_eq_ok "chunkStrategy" hst,
      optionalField_eq_ok "splitter" hsp]
  · intro hpos h1 h2 h3 h4 h5 hsp
    simp [validateConfigUpdate, updateChecks, sequenceChecks,
      fieldUpdate_eq_ok "model" h1, fieldUpdate_eq_ok "encodingFormat" h2,
      fieldUpdate_eq_ok "chunkStrategy" h3,
      fieldUpdate_eq_ok "chunkOverlap" h4,
      optionalField_eq_ok "chunkSize" (fun _ => hpos),
      fieldUpdate_eq_ok "aiServiceUrl" h5,
      optionalField_eq_ok "splitter" hsp]

/-- Witness for C4's amended theorem: an update whose only defined field
is `chunkSize = -10` fails with `chunkSize is invalid`. -/
theorem chunkSize_validation_witness :
    validateConfigUpdate
      ⟨.undef, .undef, .undef, .num (-10), .undef, .undef, .undef⟩
      = .error "chunkSize is invalid" :=
  (chunkSize_validation
    ⟨.undef, .undef, .undef, .num (-10), .undef, .undef, .undef⟩).2.1
    rfl rfl rfl rfl rfl rfl

/-! ### Claim C7 -/

/-- C7: after successful construction with a config, `getConfig` returns
exactly the six persisted fields — service URL, model, encodingFormat,
chunkSize, chunkOverlap, chunkStrategy — with the values supplied at
construction; the returned snapshot type has no splitter slot. -/
theorem getConfig_returns_persisted (c : RawConfig) (a : Adapter)
    (h : construct (some c) = .ok a) :
    getConfig a = some ⟨c.aiServiceUrl, c.model, c.encodingFormat,
      c.chunkSize, c.chunkOverlap, c.chunkStrategy⟩ := by
  cases hv : validateConfig c with
  | error e => simp [construct, hv] at h
  | ok v =>
    simp only [construct, hv, Except.ok.injEq] at h
    subst h
    rfl

/-- Witness for C7 at the test suite's valid config shape. -/
theorem getConfig_returns_persisted_witness :
    getConfig ⟨some ⟨.str "https://example.com/embeddings",
      .str "text-embedding-3-large", .str "float", .num 64, .num 10,
      .str "token", .func fun t => [t]⟩⟩
      = some ⟨.str "https://example.com/embeddings",
        .str "text-embedding-3-large", .str "float", .num 64, .num 10,
        .str "token"⟩ :=
  getConfig_returns_persisted
    ⟨.str "https://example.com/embeddings", .str "text-embedding-3-large",
      .str "float", .num 64, .num 10, .str "token", .func fun t => [t]⟩
    ⟨some ⟨.str "https://example.com/embeddings",
      .str "text-embedding-3-large", .str "float", .num 64, .num 10,
      .str "token", .func fun t => [t]⟩⟩ rfl

/-! ### Claim C8 -/

/-- C8: `buildFromConfig` behaves exactly like direct construction with
the given config — independent of the calling instance's state, storing
the config on success and throwing the validator's error on failure —
and, being a pure factory, leaves the calling instance untouched. -/
theorem buildFromConfig_equiv_construct (a a' : Adapter) (c : RawConfig) :
    buildFromConfig a c = construct (some c)
    ∧ buildFromConfig a c = buildFromConfig a' c
    ∧ (∀ b, buildFromConfig a c = .ok b →
        b.config = some c ∧ validateConfig c = .ok ())
    ∧ (∀ e, validateConfig c = .error e → buildFromConfig a c = .error e) := by
  refine ⟨rfl, rfl, ?_, ?_⟩
  · intro b h
    cases hv : validateConfig c with
    | error e => simp [buildFromConfig, construct, hv] at h
    | ok v =>
      cases v
      simp only [buildFromConfig, construct, hv, Except.ok.injEq] at h
      subst h
      exact ⟨rfl, rfl⟩
  · intro e hv
    simp [buildFromConfig, construct, hv]

/-- Witness for C8: building from a config with a non-string model
throws the same `model is invalid` error as direct construction. -/
theorem buildFromConfig_equiv_construct_witness :
    buildFromConfig ⟨none⟩
      ⟨.str "https://example.com/embeddings", .num 123, .str "float",
        .num 64, .num 10, .str "token", .func fun t => [t]⟩
      = .error "model is invalid" :=
  (buildFromConfig_equiv_construct ⟨none⟩ ⟨none⟩
    ⟨.str "https://example.com/embeddings", .num 123, .str "float",
      .num 64, .num 10, .str "token", .func fun t => [t]⟩).2.2.2
    "model is invalid" rfl

/-! ### Claim C9 -/

/-- C9: every adapter produced by construction is either empty or holds a
fully validated snapshot; constructing with an invalid config propagates
the validator's error and produces no adapter; constructing with no
config yields the empty adapter; and the two validation methods return
their instance unchanged. -/
theorem adapter_state_invariant :
    (∀ (cfg : Option RawConfig) (a : Adapter),
      construct cfg = .ok a → ValidState a)
    ∧ construct none = .ok ⟨none⟩
    ∧ (∀ (c : RawConfig) (e : String), validateConfig c = .error e →
        construct (some c) = .error e)
    ∧ (∀ (c : RawConfig) (a : Adapter), construct (some c) = .ok a →
        a.config = some c ∧ validateConfig c = .ok ())
    ∧ (∀ (a : Adapter) (c : RawConfig),
        (a.validateConfigCall c).2 = a
        ∧ (a.validateConfigUpdateCall c).2 = a) := by
  refine ⟨?_, rfl, ?_, ?_, fun a c => ⟨rfl, rfl⟩⟩
  · intro cfg a h
    cases cfg with
    | none =>
      simp only [construct, Except.ok.injEq] at h
      subst h
      exact Or.inl rfl
    | some c =>
      cases hv : validateConfig c with
      | error e => simp [construct, hv] at h
      | ok v =>
        cases v
        simp only [construct, hv, Except.ok.injEq] at h
        subst h
        exact Or.inr ⟨c, rfl, by rw [hv]⟩
  · intro c e hv
    simp [construct, hv]
  · intro c a h
    cases hv : validateConfig c with
    | error e => simp [construct, hv] at h
    | ok v =>
      cases v
      simp only [construct, hv, Except.ok.injEq] at h
      subst h
      exact ⟨rfl, rfl⟩

/-- Witness for C9: an adapter constructed from a valid config is in a
valid state. -/
theorem adapter_state_invariant_witness :
    ValidState ⟨some ⟨.str "https://example.com/embeddings",
      .str "text-embedding-3-large", .str "float", .num 64, .num 10,
      .str "token", .func fun t => [t]⟩⟩ :=
  adapter_state_invariant.1
    (some ⟨.str "https://example.com/embeddings",
      .str "text-embedding-3-large", .str "float", .num 64, .num 10,
      .str "token", .func fun t => [t]⟩)
    ⟨some ⟨.str "https://example.com/embeddings",
      .str "text-embedding-3-large", .str "float", .num 64, .num 10,
      .str "token", .func fun t => [t]⟩⟩ rfl

/-! ### Claim C10 -/

/-- C10: passing full validation is not a sufficient precondition for
`generate`: a config with no splitter is accepted yet `generate` on any
non-empty text list fails with a `TypeError` that is none of the
validation messages, and a config with no `chunkSize` is accepted yet the
batching loop produces a single empty batch instead of a partition of the
chunk list. -/
theorem validation_not_sufficient_for_generate :
    validateConfig ⟨.str "u", .str "m", .undef, .num 1, .undef, .undef,
      .undef⟩ = .ok ()
    ∧ (∀ (svc : HttpRequest → HttpResponse) (t : String) (ts : List String),
        generate svc
          ⟨.str "u", .str "m", .undef, .num 1, .undef, .undef, .undef⟩
          (t :: ts)
          = .error "TypeError: this.config.splitter is not a function")
    ∧ ("TypeError: this.config.splitter is not a function" : String) ∉
        (["aiServiceUrl is required", "aiServiceUrl is invalid",
          "model is required", "model is invalid",
          "encodingFormat is invalid", "chunkSize is invalid",
          "chunkOverlap is invalid", "chunkStrategy is invalid",
          "splitter is invalid"] : List String)
    ∧ validateConfig ⟨.str "u", .str "m", .undef, .undef, .undef, .undef,
        .func fun t => [t]⟩ = .ok ()
    ∧ batches (JSValue.undef) ["a"] = some [[]]
    ∧ ([[]] : List (List String)).flatten ≠ ["a"] := by
  refine ⟨rfl, ?_, by decide, rfl, rfl, by decide⟩
  intro svc t ts
  rfl

/-- Witness for C10: a concrete `generate` call on the
validated-but-splitterless config fails with the `TypeError`. -/
theorem validation_not_sufficient_for_generate_witness :
    generate (fun req => .success (req.input.map fun _ => [1]))
      ⟨.str "u", .str "m", .undef, .num 1, .undef, .undef, .undef⟩ ["x"]
      = .error "TypeError: this.config.splitter is not a function" :=
  validation_not_sufficient_for_generate.2.1
    (fun req => .success (req.input.map fun _ => [1])) "x" []

end TextEmbedding
